import Mathlib

/-!
# Q-Collector translation services: shallow embedding

This file embeds the two HTTP translation services of the repository:

* `src/docker/argos-translate/translate_service.py` — the FastAPI service
  (single endpoint `/translate`, batch endpoint `/translate/batch`, global
  `translation_stats` dictionary, one fixed Thai→English model
  `th_en_translation` loaded at startup);
* `src/backend/services/argos-translate-server.py` — the Flask server
  (endpoint `/translate`, per-request language lookup, `stats` dictionary).

The external Argos backend is modelled as an abstract translation function
`String → Except String String` (`Except.error` models a raised exception),
together with, for the Flask server, the installed-language list and the
per-pair model lookup.  Wall-clock latency is an external input, passed as a
rational parameter.  Each handler returns its HTTP outcome, the new
statistics state, and the number of backend `translate` invocations it made.
-/

deriving instance DecidableEq for Except

/-- Python blank test used by both services: `text.strip()` is empty, i.e.
every character of the string is whitespace (true for the empty string). -/
def pyStripIsEmpty (s : String) : Bool :=
  s.data.all Char.isWhitespace

/-- Python `len(text)`: the number of characters. -/
def pyLen (s : String) : Nat :=
  s.data.length

/-- The blank test of the FastAPI handlers:
`not request.text or len(request.text.strip()) == 0` (the batch loop's
`if text and text.strip()` is its negation). -/
def serviceTextBlank (t : String) : Bool :=
  t.data.isEmpty || pyStripIsEmpty t

/-! ## FastAPI service (`translate_service.py`) -/

/-- The global `translation_stats` dictionary of `translate_service.py`. -/
structure ServiceStats where
  total_requests : Nat
  total_characters : Nat
  average_time_ms : ℚ
  errors : Nat
deriving DecidableEq, Repr

/-- The initial value of `translation_stats`, also what `/reset-stats`
reassigns. -/
def translationStatsInit : ServiceStats :=
  { total_requests := 0, total_characters := 0, average_time_ms := 0, errors := 0 }

/-- Body of a successful `/translate` response (`TranslateResponse`).
The displayed `time_ms` is `round(elapsed_ms, 2)` in the source; rounding
for display is omitted here (no claim concerns it). -/
structure TranslateResponse where
  original : String
  translated : String
  from_lang : String
  to_lang : String
  success : Bool
  characters : Nat
  time_ms : ℚ
deriving DecidableEq, Repr

/-- Outcome of the `/translate` handler: either a response body or an
`HTTPException(status_code, detail)`. -/
inductive SingleOutcome where
  | ok (resp : TranslateResponse)
  | httpError (status : Nat) (detail : String)
deriving DecidableEq, Repr

/-- The statistics update performed after a successful single translation:
`total_requests += 1`, `total_characters += len(text)`, then
`average_time_ms = (prev_avg * (total_requests - 1) + elapsed_ms) / total_requests`
with `total_requests` the post-increment count. -/
def singleSuccessStats (st : ServiceStats) (textLen : Nat) (elapsed : ℚ) : ServiceStats :=
  let total_requests : Nat := st.total_requests + 1
  { st with
    total_requests := total_requests
    total_characters := st.total_characters + textLen
    average_time_ms :=
      (st.average_time_ms * ((total_requests : ℚ) - 1) + elapsed) / (total_requests : ℚ) }

/-- The `/translate` handler function of `translate_service.py` (the body
of `async def translate`; the pydantic validation of `TranslateRequest`
that FastAPI runs before this body is modelled separately in
`serviceTranslateEndpoint`).

`model` is the global `th_en_translation` (`none` when not loaded); note the
handler never consults `from_lang`/`to_lang` to pick a model.  `elapsed` is
the measured wall-clock duration of the backend call, in ms.  Returns the
outcome, the new `translation_stats`, and how many backend calls were made. -/
def serviceTranslate (model : Option (String → Except String String))
    (st : ServiceStats) (text from_lang to_lang : String) (elapsed : ℚ) :
    SingleOutcome × ServiceStats × Nat :=
  match model with
  | none => (.httpError 503 "Translation model not loaded. Service unavailable.", st, 0)
  | some f =>
    if serviceTextBlank text then
      (.httpError 400 "Text cannot be empty", st, 0)
    else
      match f text with
      | .error e =>
        (.httpError 500 ("Translation failed: " ++ e),
         { st with errors := st.errors + 1 }, 1)
      | .ok translated_text =>
        (.ok { original := text
               translated := translated_text
               from_lang := from_lang
               to_lang := to_lang
               success := true
               characters := pyLen text
               time_ms := elapsed },
         singleSuccessStats st (pyLen text) elapsed, 1)

/-- Body of a successful `/translate/batch` response.  `total_time_ms` and
`avg_time_per_text_ms` are rounded for display in the source; rounding is
omitted. -/
structure BatchResponse where
  count : Nat
  originals : List String
  translated : List String
  success : Bool
  total_time_ms : ℚ
  avg_time_per_text_ms : ℚ
deriving DecidableEq, Repr

/-- Outcome of the `/translate/batch` handler. -/
inductive BatchOutcome where
  | ok (resp : BatchResponse)
  | httpError (status : Nat) (detail : String)
deriving DecidableEq, Repr

/-- The `for text in request.texts` loop of `translate_batch`: blank entries
append `""` and touch no statistics; non-blank entries call the backend,
append its result and add `len(text)` to `total_characters`.  A raised
backend exception aborts the loop, discarding the collected list (the
`translated` local never escapes the `try` block). -/
def batchLoop (f : String → Except String String) :
    List String → ServiceStats → Nat → Except String (List String) × ServiceStats × Nat
  | [], st, calls => (.ok [], st, calls)
  | text :: rest, st, calls =>
    if serviceTextBlank text then
      match batchLoop f rest st calls with
      | (r, st', calls') => (r.map fun l => "" :: l, st', calls')
    else
      match f text with
      | .error e => (.error e, st, calls + 1)
      | .ok result =>
        match batchLoop f rest
            { st with total_characters := st.total_characters + pyLen text } (calls + 1) with
        | (r, st', calls') => (r.map fun l => result :: l, st', calls')

/-- The `/translate/batch` handler function of `translate_service.py` (the
body of `async def translate_batch`; the pydantic validation of
`BatchTranslateRequest` that FastAPI runs before this body is modelled
separately in `serviceTranslateBatchEndpoint` — it bounds the list at 100
entries, making this body's own `> 100` branch unreachable from HTTP).

After the loop, `total_requests += len(request.texts)` runs, then the
response dictionary is built; on an empty batch the expression
`elapsed_ms / len(request.texts)` raises `ZeroDivisionError`, which the
`except` block turns into a 500 and `errors += len(request.texts)` (i.e.
`+= 0`).  A backend exception inside the loop likewise reaches the `except`
block with `errors += len(request.texts)`. -/
def serviceTranslateBatch (model : Option (String → Except String String))
    (st : ServiceStats) (texts : List String) (elapsed : ℚ) :
    BatchOutcome × ServiceStats × Nat :=
  match model with
  | none => (.httpError 503 "Translation model not loaded", st, 0)
  | some f =>
    if texts.length > 100 then
      (.httpError 400 "Batch size too large (max 100 texts)", st, 0)
    else
      match batchLoop f texts st 0 with
      | (.error e, st', calls) =>
        (.httpError 500 ("Batch translation failed: " ++ e),
         { st' with errors := st'.errors + texts.length }, calls)
      | (.ok translated, st', calls) =>
        let st'' := { st' with total_requests := st'.total_requests + texts.length }
        if texts.length = 0 then
          (.httpError 500 "Batch translation failed: division by zero",
           { st'' with errors := st''.errors + texts.length }, calls)
        else
          (.ok { count := texts.length
                 originals := texts
                 translated := translated
                 success := true
                 total_time_ms := elapsed
                 avg_time_per_text_ms := elapsed / (texts.length : ℚ) },
           st'', calls)

/-- Pydantic validation of `TranslateRequest.text`
(`Field(..., min_length=1, max_length=1000)`, line 88 of
`translate_service.py`): FastAPI rejects a request failing it with a 422
validation error before the handler body runs. -/
def translateTextValid (text : String) : Bool :=
  decide (1 ≤ pyLen text) && decide (pyLen text ≤ 1000)

/-- Pydantic validation of `BatchTranslateRequest.texts`
(`Field(..., max_length=100)`, line 113 of `translate_service.py`):
lists longer than 100 are rejected with a 422 validation error before the
handler body runs. -/
def batchTextsValid (texts : List String) : Bool :=
  decide (texts.length ≤ 100)

/-- What the client of `/translate` sees: either FastAPI's 422 validation
rejection (the handler never ran) or the handler's outcome. -/
inductive SingleEndpointOutcome where
  | validationError422
  | handled (o : SingleOutcome)
deriving DecidableEq, Repr

/-- What the client of `/translate/batch` sees. -/
inductive BatchEndpointOutcome where
  | validationError422
  | handled (o : BatchOutcome)
deriving DecidableEq, Repr

/-- The full `/translate` endpoint: pydantic request validation, then the
handler body.  A validation failure leaves statistics untouched and makes
no backend call. -/
def serviceTranslateEndpoint (model : Option (String → Except String String))
    (st : ServiceStats) (text from_lang to_lang : String) (elapsed : ℚ) :
    SingleEndpointOutcome × ServiceStats × Nat :=
  if translateTextValid text then
    match serviceTranslate model st text from_lang to_lang elapsed with
    | (o, st', calls) => (.handled o, st', calls)
  else
    (.validationError422, st, 0)

/-- The full `/translate/batch` endpoint: pydantic request validation, then
the handler body. -/
def serviceTranslateBatchEndpoint (model : Option (String → Except String String))
    (st : ServiceStats) (texts : List String) (elapsed : ℚ) :
    BatchEndpointOutcome × ServiceStats × Nat :=
  if batchTextsValid texts then
    match serviceTranslateBatch model st texts elapsed with
    | (o, st', calls) => (.handled o, st', calls)
  else
    (.validationError422, st, 0)

/-! ## Flask server (`argos-translate-server.py`) -/

/-- The Flask server's `stats` dictionary (the `start_time` field, used only
for uptime display, is omitted). -/
structure FlaskStats where
  total_translations : Nat
  thai_to_english : Nat
  english_to_thai : Nat
deriving DecidableEq, Repr

/-- Initial Flask statistics. -/
def flaskStatsInit : FlaskStats :=
  { total_translations := 0, thai_to_english := 0, english_to_thai := 0 }

/-- The Argos backend as the Flask server sees it: the installed language
codes and, per ordered code pair, the optional translation model
(`source_lang.get_translation(target_lang)`), which when invoked may raise. -/
structure FlaskBackend where
  installed : List String
  getTranslation : String → String → Option (String → Except String String)

/-- Body of a successful Flask `/translate` response.  The blank-echo
response carries no `duration_seconds` field, so the duration is optional. -/
structure FlaskOkBody where
  translatedText : String
  source : String
  target : String
  original : String
  duration : Option ℚ
deriving DecidableEq, Repr

/-- Outcome of the Flask `/translate` handler: a JSON body with status 200,
400 or 500. -/
inductive FlaskOutcome where
  | ok (body : FlaskOkBody)
  | clientError (msg : String)
  | serverError (msg : String)
deriving DecidableEq, Repr

/-- The Flask `/translate` handler.  `q` is `none` when the `q` key is
missing from the request body; `duration` is the measured wall-clock
duration of the backend call, in seconds.  Returns the outcome, the new
`stats`, and the number of backend `translate` invocations. -/
def flaskTranslate (b : FlaskBackend) (st : FlaskStats) (q : Option String)
    (source target : String) (duration : ℚ) : FlaskOutcome × FlaskStats × Nat :=
  match q with
  | none => (.clientError "Missing required parameter: q", st, 0)
  | some text =>
    if pyStripIsEmpty text then
      (.ok { translatedText := text, source := source, target := target,
             original := text, duration := none }, st, 0)
    else if !(b.installed.contains source) then
      (.clientError ("Source language \"" ++ source ++ "\" not available"), st, 0)
    else if !(b.installed.contains target) then
      (.clientError ("Target language \"" ++ target ++ "\" not available"), st, 0)
    else
      match b.getTranslation source target with
      | none =>
        (.clientError ("No translation model available from " ++ source ++ " to " ++ target),
         st, 0)
      | some tr =>
        match tr text with
        | .error e => (.serverError e, st, 1)
        | .ok translated_text =>
          (.ok { translatedText := translated_text, source := source, target := target,
                 original := text, duration := some duration },
           { st with
             total_translations := st.total_translations + 1
             thai_to_english :=
               if source = "th" && target = "en" then st.thai_to_english + 1
               else st.thai_to_english
             english_to_thai :=
               if !(source = "th" && target = "en") && (source = "en" && target = "th") then
                 st.english_to_thai + 1
               else st.english_to_thai }, 1)

/-! ## Derived descriptions used in the claim statements

These definitions restate, from the outside, what the handlers are claimed
to compute; the theorems below compare the handler embeddings against them. -/

/-- The payload of a backend result, with `""` for the (excluded) error case. -/
def okOr (e : Except String String) : String :=
  match e with
  | .ok r => r
  | .error _ => ""

/-- The output list the batch endpoint is claimed to produce: one entry per
input, `""` for blank inputs, the backend translation otherwise. -/
def expectedBatchOutput (f : String → Except String String) (texts : List String) :
    List String :=
  texts.map fun t => if serviceTextBlank t then "" else okOr (f t)

/-- Total character count of the non-blank entries of a batch. -/
def nonBlankCharSum (texts : List String) : Nat :=
  ((texts.filter fun t => !(serviceTextBlank t)).map pyLen).sum

/-- Number of non-blank entries of a batch (= number of backend calls the
loop makes when nothing fails). -/
def nonBlankCount (texts : List String) : Nat :=
  (texts.filter fun t => !(serviceTextBlank t)).length

/-- Characters of the texts the batch loop successfully hands to the
backend: blank entries contribute nothing, a backend failure stops the
count (later entries are never attempted). -/
def batchSuccChars (f : String → Except String String) : List String → Nat
  | [] => 0
  | t :: rest =>
    if serviceTextBlank t then batchSuccChars f rest
    else
      match f t with
      | .ok _ => pyLen t + batchSuccChars f rest
      | .error _ => 0

/-- One request to the FastAPI service, for trace-level statements. -/
inductive ServiceEvent where
  | single (text from_lang to_lang : String) (elapsed : ℚ)
  | batch (texts : List String) (elapsed : ℚ)

/-- Statistics state after one request (the HTTP outcome is dropped). -/
def stepEvent (f : String → Except String String) (st : ServiceStats) :
    ServiceEvent → ServiceStats
  | .single t fl tl el => (serviceTranslate (some f) st t fl tl el).2.1
  | .batch ts el => (serviceTranslateBatch (some f) st ts el).2.1

/-- Statistics state after a sequence of requests. -/
def runEvents (f : String → Except String String) :
    List ServiceEvent → ServiceStats → ServiceStats
  | [], st => st
  | e :: rest, st => runEvents f rest (stepEvent f st e)

/-- Characters of the non-blank texts a request successfully translates. -/
def eventSuccChars (f : String → Except String String) : ServiceEvent → Nat
  | .single t _ _ _ =>
    if serviceTextBlank t then 0
    else
      match f t with
      | .ok _ => pyLen t
      | .error _ => 0
  | .batch ts _ => if ts.length > 100 then 0 else batchSuccChars f ts

/-- Statistics state after a sequence of single-text requests, given as
(text, measured latency) pairs. -/
def runSingles (f : String → Except String String) :
    List (String × ℚ) → ServiceStats → ServiceStats
  | [], st => st
  | (t, l) :: rest, st => runSingles f rest (serviceTranslate (some f) st t "th" "en" l).2.1

/-! ## Helper lemmas -/

/-- When every non-blank entry translates, the batch loop returns the
expected output list, adds exactly the non-blank characters, and makes one
backend call per non-blank entry. -/
theorem batchLoop_ok (f : String → Except String String) (texts : List String)
    (st : ServiceStats) (calls : Nat)
    (hok : ∀ t ∈ texts, serviceTextBlank t = false → (f t).isOk) :
    batchLoop f texts st calls =
      (.ok (expectedBatchOutput f texts),
       { st with total_characters := st.total_characters + nonBlankCharSum texts },
       calls + nonBlankCount texts) := by
  induction texts generalizing st calls with
  | nil => simp [batchLoop, expectedBatchOutput, nonBlankCharSum, nonBlankCount]
  | cons t rest ih =>
    have hrest : ∀ u ∈ rest, serviceTextBlank u = false → (f u).isOk := by
      intro u hu
      exact hok u (List.mem_cons_of_mem _ hu)
    by_cases hb : serviceTextBlank t = true
    · rw [batchLoop, if_pos hb, ih _ _ hrest]
      simp [expectedBatchOutput, nonBlankCharSum, nonBlankCount, hb, Except.map]
    · have hb' : serviceTextBlank t = false := by
        cases h : serviceTextBlank t
        · rfl
        · exact absurd h hb
      obtain ⟨r, hr⟩ : ∃ r, f t = .ok r := by
        have := hok t (List.mem_cons_self t rest) hb'
        cases h : f t with
        | ok r => exact ⟨r, rfl⟩
        | error e => rw [h] at this; exact absurd this (by simp [Except.isOk, Except.toBool])
      rw [batchLoop, if_neg (by simp [hb']), hr, ih _ _ hrest]
      simp [expectedBatchOutput, nonBlankCharSum, nonBlankCount, hb', hr, okOr, Except.map,
        Nat.add_assoc, Nat.add_comm]

/-- The batch loop never touches `errors`, `total_requests` or
`average_time_ms`, whether it finishes or aborts on a backend exception. -/
theorem batchLoop_preserves (f : String → Except String String) (texts : List String)
    (st : ServiceStats) (calls : Nat) :
    (batchLoop f texts st calls).2.1.errors = st.errors ∧
    (batchLoop f texts st calls).2.1.total_requests = st.total_requests ∧
    (batchLoop f texts st calls).2.1.average_time_ms = st.average_time_ms := by
  induction texts generalizing st calls with
  | nil => simp [batchLoop]
  | cons t rest ih =>
    by_cases hb : serviceTextBlank t = true
    · rw [batchLoop, if_pos hb]
      rcases h : batchLoop f rest st calls with ⟨r, st', calls'⟩
      have := ih st calls
      rw [h] at this
      simpa using this
    · rw [batchLoop, if_neg hb]
      cases hf : f t with
      | error e => simp
      | ok r =>
        rcases h :
            batchLoop f rest
              { st with total_characters := st.total_characters + pyLen t } (calls + 1) with
          ⟨r', st', calls'⟩
        have := ih { st with total_characters := st.total_characters + pyLen t } (calls + 1)
        rw [h] at this
        simpa using this

/-- Whatever happens in the loop, `total_characters` grows by exactly the
characters of the successfully translated non-blank entries. -/
theorem batchLoop_chars (f : String → Except String String) (texts : List String)
    (st : ServiceStats) (calls : Nat) :
    (batchLoop f texts st calls).2.1.total_characters
      = st.total_characters + batchSuccChars f texts := by
  induction texts generalizing st calls with
  | nil => simp [batchLoop, batchSuccChars]
  | cons t rest ih =>
    by_cases hb : serviceTextBlank t = true
    · rw [batchLoop, if_pos hb]
      rcases h : batchLoop f rest st calls with ⟨r, st', calls'⟩
      have := ih st calls
      rw [h] at this
      simpa [batchSuccChars, hb] using this
    · rw [batchLoop, if_neg hb]
      cases hf : f t with
      | error e => simp [batchSuccChars, hb, hf]
      | ok r =>
        rcases h :
            batchLoop f rest
              { st with total_characters := st.total_characters + pyLen t } (calls + 1) with
          ⟨r', st', calls'⟩
        have := ih { st with total_characters := st.total_characters + pyLen t } (calls + 1)
        rw [h] at this
        simp only [h]
        simpa [batchSuccChars, hb, hf, Nat.add_assoc] using this

/-- One request grows `total_characters` by exactly the characters of the
non-blank texts whose backend call succeeded. -/
theorem stepEvent_chars (f : String → Except String String) (st : ServiceStats)
    (e : ServiceEvent) :
    (stepEvent f st e).total_characters = st.total_characters + eventSuccChars f e := by
  cases e with
  | single t fl tl el =>
    by_cases hb : serviceTextBlank t = true
    · simp [stepEvent, serviceTranslate, eventSuccChars, hb]
    · cases hf : f t with
      | error e => simp [stepEvent, serviceTranslate, eventSuccChars, hb, hf]
      | ok r => simp [stepEvent, serviceTranslate, eventSuccChars, singleSuccessStats, hb, hf]
  | batch ts el =>
    by_cases hlen : ts.length > 100
    · simp [stepEvent, serviceTranslateBatch, eventSuccChars, hlen]
    · have hchars := batchLoop_chars f ts st 0
      rcases h : batchLoop f ts st 0 with ⟨r, st', calls⟩
      rw [h] at hchars
      cases r with
      | error e =>
        simp only [stepEvent, serviceTranslateBatch, if_neg hlen, h, eventSuccChars]
        simpa [hlen] using hchars
      | ok lst =>
        by_cases hz : ts.length = 0
        · simp only [stepEvent, serviceTranslateBatch, if_neg hlen, h, if_pos hz, eventSuccChars]
          simpa [hlen] using hchars
        · simp only [stepEvent, serviceTranslateBatch, if_neg hlen, h, if_neg hz, eventSuccChars]
          simpa [hlen] using hchars

/-- Across a whole trace, `total_characters` accumulates exactly the
successfully translated non-blank characters of each request. -/
theorem runEvents_chars (f : String → Except String String) (evs : List ServiceEvent)
    (st : ServiceStats) :
    (runEvents f evs st).total_characters
      = st.total_characters + (evs.map (eventSuccChars f)).sum := by
  induction evs generalizing st with
  | nil => simp [runEvents]
  | cons e rest ih =>
    rw [runEvents, ih, stepEvent_chars]
    simp [Nat.add_assoc]

/-- Invariant behind the running mean: over any run of successful single
requests, the request count advances by the number of requests and
`average_time_ms * total_requests` advances by the sum of the latencies. -/
theorem runSingles_invariant (f : String → Except String String)
    (reqs : List (String × ℚ)) (st : ServiceStats)
    (hok : ∀ p ∈ reqs, serviceTextBlank p.1 = false ∧ (f p.1).isOk) :
    (runSingles f reqs st).total_requests = st.total_requests + reqs.length ∧
    (runSingles f reqs st).average_time_ms * ((st.total_requests + reqs.length : Nat) : ℚ)
      = st.average_time_ms * (st.total_requests : ℚ) + (reqs.map Prod.snd).sum := by
  induction reqs generalizing st with
  | nil => simp [runSingles]
  | cons p rest ih =>
    obtain ⟨t, l⟩ := p
    obtain ⟨hb, hisok⟩ := hok (t, l) (List.mem_cons_self _ _)
    obtain ⟨r, hr⟩ : ∃ r, f t = .ok r := by
      cases h : f t with
      | ok r => exact ⟨r, rfl⟩
      | error e => rw [h] at hisok; exact absurd hisok (by simp [Except.isOk, Except.toBool])
    have hrest : ∀ q ∈ rest, serviceTextBlank q.1 = false ∧ (f q.1).isOk :=
      fun q hq => hok q (List.mem_cons_of_mem _ hq)
    rw [runSingles]
    simp only [serviceTranslate, hb, hr, Bool.false_eq_true, if_false]
    obtain ⟨ihn, ihavg⟩ := ih (singleSuccessStats st (pyLen t) l) hrest
    have hn : (singleSuccessStats st (pyLen t) l).total_requests = st.total_requests + 1 := rfl
    constructor
    · rw [ihn, hn, List.length_cons]
      omega
    · have hcast : ((st.total_requests + 1 : Nat) : ℚ) ≠ 0 := by
        exact_mod_cast Nat.succ_ne_zero st.total_requests
      have havg : (singleSuccessStats st (pyLen t) l).average_time_ms
            * ((st.total_requests + 1 : Nat) : ℚ)
          = st.average_time_ms * (st.total_requests : ℚ) + l := by
        show (st.average_time_ms * (((st.total_requests + 1 : Nat) : ℚ) - 1) + l)
              / ((st.total_requests + 1 : Nat) : ℚ) * ((st.total_requests + 1 : Nat) : ℚ)
            = st.average_time_ms * (st.total_requests : ℚ) + l
        rw [div_mul_cancel₀ _ hcast]
        push_cast
        ring
      have hidx : st.total_requests + (rest.length + 1)
          = (singleSuccessStats st (pyLen t) l).total_requests + rest.length := by
        rw [hn]; omega
      calc (runSingles f rest (singleSuccessStats st (pyLen t) l)).average_time_ms
            * ((st.total_requests + ((t, l) :: rest).length : Nat) : ℚ)
          = (runSingles f rest (singleSuccessStats st (pyLen t) l)).average_time_ms
            * (((singleSuccessStats st (pyLen t) l).total_requests + rest.length : Nat) : ℚ) := by
            rw [List.length_cons, hidx]
        _ = (singleSuccessStats st (pyLen t) l).average_time_ms
            * (((singleSuccessStats st (pyLen t) l).total_requests : Nat) : ℚ)
            + (rest.map Prod.snd).sum := ihavg
        _ = st.average_time_ms * (st.total_requests : ℚ) + l + (rest.map Prod.snd).sum := by
            rw [hn, havg]
        _ = st.average_time_ms * (st.total_requests : ℚ) + (((t, l) :: rest).map Prod.snd).sum := by
            rw [List.map_cons, List.sum_cons]
            ring

/-! ## Claims -/

/-- C1, counterexample: in the FastAPI service a whitespace-only text is not
echoed back as the claim states; the handler rejects it with
`400 Text cannot be empty` (statistics unchanged and no backend call, but
the response is an error, not an echo). -/
theorem C1_counterexample :
    serviceTranslate (some fun s => Except.ok s) translationStatsInit " " "th" "en" 1
      = (.httpError 400 "Text cannot be empty", translationStatsInit, 0) ∧
    ∀ resp : TranslateResponse,
      (serviceTranslate (some fun s => Except.ok s) translationStatsInit " " "th" "en" 1).1
        ≠ SingleOutcome.ok resp := by
  refine ⟨by decide, ?_⟩
  intro resp h
  rw [show (serviceTranslate (some fun s => Except.ok s) translationStatsInit " " "th" "en" 1).1
      = SingleOutcome.httpError 400 "Text cannot be empty" from by decide] at h
  exact SingleOutcome.noConfusion h

/-- C1, amended: for a present but blank (empty or whitespace-only) text,
neither service calls the backend and neither updates statistics; the Flask
server echoes the input unchanged as both `original` and `translatedText`,
while the FastAPI service instead rejects the request — with a 422
validation error when the text fails `TranslateRequest`'s length bounds
(empty, or over 1000 characters: the handler body never runs), and
otherwise with the handler's `400 Text cannot be empty`. -/
theorem C1_blank_text_behavior (b : FlaskBackend) (fst : FlaskStats)
    (sst : ServiceStats) (f : String → Except String String)
    (text source target fl tl : String) (dur el : ℚ)
    (hb : pyStripIsEmpty text = true) :
    flaskTranslate b fst (some text) source target dur =
      (.ok { translatedText := text, source := source, target := target,
             original := text, duration := none }, fst, 0) ∧
    serviceTranslateEndpoint (some f) sst text fl tl el =
      (if translateTextValid text
         then .handled (.httpError 400 "Text cannot be empty")
         else .validationError422,
       sst, 0) := by
  constructor
  · simp [flaskTranslate, hb]
  · by_cases hv : translateTextValid text = true
    · simp [serviceTranslateEndpoint, hv, serviceTranslate, serviceTextBlank, hb]
    · have hv' : translateTextValid text = false := by
        cases h : translateTextValid text
        · rfl
        · exact absurd h hv
      simp [serviceTranslateEndpoint, hv']

/-- C1, witness: the amended claim evaluated at the whitespace-only text
`" "` (within the validation bounds, so the handler's 400 is produced) and
at the empty text `""` (rejected by validation with a 422). -/
theorem C1_witness :
    pyStripIsEmpty " " = true ∧
    pyStripIsEmpty "" = true ∧
    (flaskTranslate { installed := ["th", "en"], getTranslation := fun _ _ => none }
        flaskStatsInit (some " ") "th" "en" 3 =
      (.ok { translatedText := " ", source := "th", target := "en",
             original := " ", duration := none }, flaskStatsInit, 0) ∧
     serviceTranslateEndpoint (some fun s => Except.ok s)
        translationStatsInit " " "fr" "de" 1 =
      (.handled (.httpError 400 "Text cannot be empty"), translationStatsInit, 0)) ∧
    serviceTranslateEndpoint (some fun s => Except.ok s)
        translationStatsInit "" "th" "en" 1 =
      (.validationError422, translationStatsInit, 0) := by
  have h1 := C1_blank_text_behavior
    { installed := ["th", "en"], getTranslation := fun _ _ => none } flaskStatsInit
    translationStatsInit (fun s => Except.ok s) " " "th" "en" "fr" "de" 3 1 (by decide)
  have h2 := C1_blank_text_behavior
    { installed := ["th", "en"], getTranslation := fun _ _ => none } flaskStatsInit
    translationStatsInit (fun s => Except.ok s) "" "th" "en" "th" "en" 3 1 (by decide)
  refine ⟨by decide, by decide, ⟨h1.1, ?_⟩, ?_⟩
  · rw [h1.2]
    decide
  · rw [h2.2]
    decide

/-- C2, counterexample: a batch consisting of a single blank entry is not
statistics-neutral: the handler adds the full batch size (blanks included)
to `total_requests`, so from reset statistics the counter becomes 1, not 0
as the claim's blank-skip rule requires. -/
theorem C2_counterexample :
    (serviceTranslateBatch (some fun s => Except.ok s)
        translationStatsInit [""] 10).2.1.total_requests = 1 ∧
    (serviceTranslateBatch (some fun s => Except.ok s)
        translationStatsInit [""] 10).2.1.total_requests
      ≠ translationStatsInit.total_requests :=
  ⟨by decide, by decide⟩

/-- C2, amended: for every nonempty batch of at most 100 texts whose
non-blank entries all translate, the endpoint returns one output per input
in input order — `""` for blank entries (which get no backend call and add
nothing to `total_characters`), the backend translation for the others —
while `total_requests` grows by the full batch size (blank entries
included) and `total_characters` by the non-blank character sum; the
backend is called exactly once per non-blank entry. -/
theorem C2_batch_order_and_blanks (f : String → Except String String)
    (st : ServiceStats) (texts : List String) (el : ℚ)
    (hne : texts ≠ [])
    (hlen : texts.length ≤ 100)
    (hok : ∀ t ∈ texts, serviceTextBlank t = false → (f t).isOk) :
    serviceTranslateBatch (some f) st texts el =
      (.ok { count := texts.length, originals := texts,
             translated := expectedBatchOutput f texts, success := true,
             total_time_ms := el, avg_time_per_text_ms := el / (texts.length : ℚ) },
       { st with total_requests := st.total_requests + texts.length,
                 total_characters := st.total_characters + nonBlankCharSum texts },
       nonBlankCount texts) ∧
    (expectedBatchOutput f texts).length = texts.length := by
  have hlen' : ¬(texts.length > 100) := by omega
  have hz : ¬(texts.length = 0) := by
    intro h0
    exact hne (List.length_eq_zero.mp h0)
  constructor
  · simp only [serviceTranslateBatch, if_neg hlen', batchLoop_ok f texts st 0 hok]
    simp [if_neg hz, hne]
  · simp [expectedBatchOutput]

/-- C2, witness: the amended claim evaluated on the batch `["a", "", "b"]`
with a backend that prefixes `T`: the blank middle entry yields `""`, order
is preserved, `total_requests` rises by 3 and `total_characters` by 2. -/
theorem C2_witness :
    serviceTranslateBatch (some fun s => Except.ok ("T" ++ s))
        translationStatsInit ["a", "", "b"] 6 =
      (.ok { count := 3, originals := ["a", "", "b"], translated := ["Ta", "", "Tb"],
             success := true, total_time_ms := 6, avg_time_per_text_ms := 2 },
       { total_requests := 3, total_characters := 2, average_time_ms := 0, errors := 0 }, 2) := by
  have h := (C2_batch_order_and_blanks (fun s => Except.ok ("T" ++ s))
      translationStatsInit ["a", "", "b"] 6 (by simp) (by simp) (by decide)).1
  rw [h]
  norm_num [expectedBatchOutput, nonBlankCharSum, nonBlankCount, okOr, translationStatsInit,
    pyLen, show serviceTextBlank "a" = false from by decide,
    show serviceTextBlank "" = true from by decide,
    show serviceTextBlank "b" = false from by decide,
    show ("T" ++ "a" : String) = "Ta" from by decide,
    show ("T" ++ "b" : String) = "Tb" from by decide,
    show pyLen "a" = 1 from by decide, show pyLen "b" = 1 from by decide]

/-- C3: starting from reset statistics, after any nonempty sequence of
successful single-text requests with latencies `l_1..l_n`, the request
counter equals `n` and `average_time_ms` equals the arithmetic mean of the
latencies; moreover each step applies the incremental formula
`newMean = (oldMean * (n - 1) + sample) / n` with `n` the post-increment
request count. -/
theorem C3_average_latency_is_mean (f : String → Except String String)
    (reqs : List (String × ℚ))
    (hne : reqs ≠ [])
    (hok : ∀ p ∈ reqs, serviceTextBlank p.1 = false ∧ (f p.1).isOk) :
    (runSingles f reqs translationStatsInit).total_requests = reqs.length ∧
    (runSingles f reqs translationStatsInit).average_time_ms
      = (reqs.map Prod.snd).sum / (reqs.length : ℚ) ∧
    ∀ (st : ServiceStats) (t : String) (l : ℚ) (r : String),
      serviceTextBlank t = false → f t = .ok r →
      (serviceTranslate (some f) st t "th" "en" l).2.1.average_time_ms
        = (st.average_time_ms * (((st.total_requests + 1 : Nat) : ℚ) - 1) + l)
            / ((st.total_requests + 1 : Nat) : ℚ) := by
  obtain ⟨hn, havg⟩ := runSingles_invariant f reqs translationStatsInit hok
  have hlen : ((reqs.length : Nat) : ℚ) ≠ 0 := by
    have : reqs.length ≠ 0 := by
      intro h0
      exact hne (List.length_eq_zero.mp h0)
    exact_mod_cast this
  refine ⟨by simpa [translationStatsInit] using hn, ?_, ?_⟩
  · rw [eq_div_iff hlen]
    simpa [translationStatsInit] using havg
  · intro st t l r hb hr
    simp [serviceTranslate, hb, hr, singleSuccessStats]

/-- C3, witness: two requests with latencies 4 and 10 leave an average of 7
and a request count of 2. -/
theorem C3_witness :
    (runSingles (fun s => Except.ok s) [("x", 4), ("y", 10)]
        translationStatsInit).average_time_ms = 7 ∧
    (runSingles (fun s => Except.ok s) [("x", 4), ("y", 10)]
        translationStatsInit).total_requests = 2 := by
  have h := C3_average_latency_is_mean (fun s => Except.ok s) [("x", 4), ("y", 10)]
    (by simp) (by decide)
  refine ⟨?_, h.1⟩
  rw [h.2.1]
  norm_num

/-- C4, counterexample: the FastAPI service, asked to translate from `fr`
to `de`, does not fail with any language-unavailable error: it invokes the
backend (its fixed Thai→English model) exactly once and returns a success
response labelled with the requested codes. -/
theorem C4_counterexample :
    (serviceTranslate (some fun s => Except.ok ("T" ++ s))
        translationStatsInit "x" "fr" "de" 2).1
      = SingleOutcome.ok { original := "x", translated := "Tx", from_lang := "fr",
                           to_lang := "de", success := true, characters := 1, time_ms := 2 } ∧
    (serviceTranslate (some fun s => Except.ok ("T" ++ s))
        translationStatsInit "x" "fr" "de" 2).2.2 = 1 ∧
    ∀ (status : Nat) (detail : String),
      (serviceTranslate (some fun s => Except.ok ("T" ++ s))
          translationStatsInit "x" "fr" "de" 2).1
        ≠ SingleOutcome.httpError status detail := by
  refine ⟨by decide, by decide, ?_⟩
  intro status detail h
  rw [show (serviceTranslate (some fun s => Except.ok ("T" ++ s))
        translationStatsInit "x" "fr" "de" 2).1
      = SingleOutcome.ok { original := "x", translated := "Tx", from_lang := "fr",
                           to_lang := "de", success := true, characters := 1, time_ms := 2 }
    from by decide] at h
  exact SingleOutcome.noConfusion h

/-- C4, amended: the language check exists only in the Flask server: for a
non-blank text, if the source code is absent from the installed set the
Flask handler returns a 400 error naming the source code, and if the source
is present but the target absent it returns a 400 error naming the target
code, in both cases without invoking the backend and without touching
statistics.  The FastAPI service performs no such check (see the
counterexample): it translates with its fixed model whatever the codes. -/
theorem C4_language_check_flask_only (b : FlaskBackend) (st : FlaskStats)
    (text source target : String) (dur : ℚ)
    (hb : pyStripIsEmpty text = false) :
    (b.installed.contains source = false →
      flaskTranslate b st (some text) source target dur =
        (.clientError ("Source language \"" ++ source ++ "\" not available"), st, 0)) ∧
    (b.installed.contains source = true → b.installed.contains target = false →
      flaskTranslate b st (some text) source target dur =
        (.clientError ("Target language \"" ++ target ++ "\" not available"), st, 0)) := by
  constructor
  · intro hs
    have hs' : source ∉ b.installed := by simpa using hs
    simp [flaskTranslate, hb, hs']
  · intro hs ht
    have hs' : source ∈ b.installed := by simpa using hs
    have ht' : target ∉ b.installed := by simpa using ht
    simp [flaskTranslate, hb, hs', ht']

/-- C4, witness: with installed languages `["th", "en"]`, a request from
`fr` (not installed) is rejected by the Flask server naming `fr`, with
statistics unchanged and no backend call. -/
theorem C4_witness :
    pyStripIsEmpty "x" = false ∧
    (["th", "en"] : List String).contains "fr" = false ∧
    flaskTranslate { installed := ["th", "en"], getTranslation := fun _ _ => none }
        flaskStatsInit (some "x") "fr" "en" 3 =
      (.clientError ("Source language \"" ++ "fr" ++ "\" not available"), flaskStatsInit, 0) :=
  ⟨by decide, by decide,
    (C4_language_check_flask_only _ _ _ _ _ _ (by decide)).1 (by decide)⟩

/-- C5: when the backend raises on a non-blank single request, the FastAPI
service increments only the error counter (by one), leaves the request
count, character total and running mean untouched, and returns a 500 with
the wrapped message. -/
theorem C5_single_backend_failure (f : String → Except String String)
    (st : ServiceStats) (text fl tl : String) (el : ℚ) (e : String)
    (hb : serviceTextBlank text = false)
    (herr : f text = .error e) :
    serviceTranslate (some f) st text fl tl el =
      (.httpError 500 ("Translation failed: " ++ e),
       { st with errors := st.errors + 1 }, 1) ∧
    ({ st with errors := st.errors + 1 } : ServiceStats).total_requests = st.total_requests ∧
    ({ st with errors := st.errors + 1 } : ServiceStats).total_characters = st.total_characters ∧
    ({ st with errors := st.errors + 1 } : ServiceStats).average_time_ms = st.average_time_ms ∧
    ({ st with errors := st.errors + 1 } : ServiceStats).errors = st.errors + 1 := by
  refine ⟨?_, rfl, rfl, rfl, rfl⟩
  simp [serviceTranslate, hb, herr]

/-- C5, witness: a backend that raises `boom` on the text `x`. -/
theorem C5_witness :
    serviceTranslate (some fun _ => Except.error "boom")
        translationStatsInit "x" "th" "en" 1 =
      (.httpError 500 ("Translation failed: " ++ "boom"),
       { translationStatsInit with errors := translationStatsInit.errors + 1 }, 1) :=
  (C5_single_backend_failure (fun _ => Except.error "boom")
    translationStatsInit "x" "th" "en" 1 "boom" (by decide) rfl).1

/-- C6: when the backend raises inside the batch loop, the whole batch
fails with a 500 carrying only the wrapped message (no partial results:
the outcome is never an `ok` response), the error counter grows by the
full batch size, and the request count and running mean are untouched. -/
theorem C6_batch_failure_aborts (f : String → Except String String)
    (st stMid : ServiceStats) (texts : List String) (el : ℚ) (e : String) (calls : Nat)
    (hlen : texts.length ≤ 100)
    (hloop : batchLoop f texts st 0 = (.error e, stMid, calls)) :
    serviceTranslateBatch (some f) st texts el =
      (.httpError 500 ("Batch translation failed: " ++ e),
       { stMid with errors := stMid.errors + texts.length }, calls) ∧
    ({ stMid with errors := stMid.errors + texts.length } : ServiceStats).errors
      = st.errors + texts.length ∧
    ({ stMid with errors := stMid.errors + texts.length } : ServiceStats).total_requests
      = st.total_requests ∧
    ({ stMid with errors := stMid.errors + texts.length } : ServiceStats).average_time_ms
      = st.average_time_ms ∧
    ∀ resp : BatchResponse,
      (serviceTranslateBatch (some f) st texts el).1 ≠ BatchOutcome.ok resp := by
  have hlen' : ¬(texts.length > 100) := by omega
  have hpres := batchLoop_preserves f texts st 0
  rw [hloop] at hpres
  have hmain : serviceTranslateBatch (some f) st texts el =
      (.httpError 500 ("Batch translation failed: " ++ e),
       { stMid with errors := stMid.errors + texts.length }, calls) := by
    simp only [serviceTranslateBatch, if_neg hlen', hloop]
  refine ⟨hmain, ?_, ?_, ?_, ?_⟩
  · simpa using congrArg (fun n => n + texts.length) hpres.1
  · exact hpres.2.1
  · exact hpres.2.2
  · intro resp h
    rw [hmain] at h
    exact BatchOutcome.noConfusion h

/-- C6, witness: the batch `["a", "b"]` with a backend that raises on `b`:
the loop aborts after two calls, the endpoint returns the 500 wrapper, and
the error counter rises by the batch size 2 (not 1). -/
theorem C6_witness :
    (["a", "b"] : List String).length ≤ 100 ∧
    batchLoop (fun s => if s = "b" then Except.error "boom" else Except.ok s)
        ["a", "b"] translationStatsInit 0 =
      (.error "boom", { translationStatsInit with total_characters := 1 }, 2) ∧
    serviceTranslateBatch (some fun s => if s = "b" then Except.error "boom" else Except.ok s)
        translationStatsInit ["a", "b"] 5 =
      (.httpError 500 ("Batch translation failed: " ++ "boom"),
       { translationStatsInit with total_characters := 1, errors := 0 + 2 }, 2) :=
  ⟨by decide, by decide,
    (C6_batch_failure_aborts (fun s => if s = "b" then Except.error "boom" else Except.ok s)
      translationStatsInit { translationStatsInit with total_characters := 1 }
      ["a", "b"] 5 "boom" 2 (by decide) (by decide)).1⟩

/-- C7, counterexample: a batch of 101 texts is rejected by pydantic's
`max_length=100` validation with a 422 before the handler body runs: the
endpoint outcome is the validation error, never any handler outcome — in
particular not the claimed 400 `Batch size too large` response. -/
theorem C7_counterexample :
    serviceTranslateBatchEndpoint (some fun s => Except.ok s)
        translationStatsInit (List.replicate 101 "x") 5 =
      (.validationError422, translationStatsInit, 0) ∧
    ∀ o : BatchOutcome,
      (serviceTranslateBatchEndpoint (some fun s => Except.ok s)
          translationStatsInit (List.replicate 101 "x") 5).1
        ≠ BatchEndpointOutcome.handled o := by
  refine ⟨by decide, ?_⟩
  intro o h
  rw [show (serviceTranslateBatchEndpoint (some fun s => Except.ok s)
        translationStatsInit (List.replicate 101 "x") 5).1
      = BatchEndpointOutcome.validationError422 from by decide] at h
  exact BatchEndpointOutcome.noConfusion h

/-- C7, amended: a batch of more than 100 texts is rejected before the
handler body runs, with a 422 validation error from
`BatchTranslateRequest`'s `max_length=100` bound — before any backend call
and with statistics unchanged; the handler body's own
`400 Batch size too large (max 100 texts)` check would reject such a batch
the same way but is unreachable behind the validation. -/
theorem C7_batch_rejected_before_handler (f : String → Except String String)
    (st : ServiceStats) (texts : List String) (el : ℚ)
    (hlen : texts.length > 100) :
    serviceTranslateBatchEndpoint (some f) st texts el =
      (.validationError422, st, 0) ∧
    serviceTranslateBatch (some f) st texts el =
      (.httpError 400 "Batch size too large (max 100 texts)", st, 0) := by
  have hv : batchTextsValid texts = false := by
    simp only [batchTextsValid, decide_eq_false_iff_not]
    omega
  constructor
  · simp [serviceTranslateBatchEndpoint, hv]
  · simp [serviceTranslateBatch, hlen]

/-- C7, witness: a batch of 101 copies of `x` is rejected by validation
with statistics unchanged and zero backend calls (and the handler body,
were it reachable, would return the 400). -/
theorem C7_witness :
    (List.replicate 101 "x").length > 100 ∧
    (serviceTranslateBatchEndpoint (some fun s => Except.ok s)
        translationStatsInit (List.replicate 101 "x") 5 =
      (.validationError422, translationStatsInit, 0) ∧
     serviceTranslateBatch (some fun s => Except.ok s)
        translationStatsInit (List.replicate 101 "x") 5 =
      (.httpError 400 "Batch size too large (max 100 texts)", translationStatsInit, 0)) :=
  ⟨by simp, C7_batch_rejected_before_handler (fun s => Except.ok s)
    translationStatsInit (List.replicate 101 "x") 5 (by simp)⟩

/-- C8: starting from reset statistics, after any sequence of single and
batch requests `total_characters` equals the summed lengths of exactly the
non-blank texts whose backend translation succeeded (blank inputs and
failed or never-attempted entries contribute nothing, on both paths). -/
theorem C8_total_characters_invariant (f : String → Except String String)
    (evs : List ServiceEvent) :
    (runEvents f evs translationStatsInit).total_characters
      = (evs.map (eventSuccChars f)).sum := by
  have h := runEvents_chars f evs translationStatsInit
  simpa [translationStatsInit] using h

/-- C9: the FastAPI single endpoint ignores the request's language codes:
for any non-blank text it applies the one fixed startup model `f` and
echoes whatever `from_lang`/`to_lang` the caller sent back in the response;
the statistics update and call count do not depend on the codes either. -/
theorem C9_language_codes_ignored (f : String → Except String String)
    (st : ServiceStats) (text fl tl : String) (el : ℚ) (r : String)
    (hb : serviceTextBlank text = false)
    (hok : f text = .ok r) :
    serviceTranslate (some f) st text fl tl el =
      (.ok { original := text, translated := r, from_lang := fl, to_lang := tl,
             success := true, characters := pyLen text, time_ms := el },
       singleSuccessStats st (pyLen text) el, 1) ∧
    ∀ fl' tl' : String,
      (serviceTranslate (some f) st text fl' tl' el).2
        = (serviceTranslate (some f) st text fl tl el).2 := by
  constructor
  · simp [serviceTranslate, hb, hok]
  · intro fl' tl'
    simp [serviceTranslate, hb, hok]

/-- C9, witness: a request labelled `ja`→`fr` is still served by the fixed
model and the response echoes `ja`/`fr`. -/
theorem C9_witness :
    serviceTranslate (some fun s => Except.ok ("T" ++ s))
        translationStatsInit "x" "ja" "fr" 2 =
      (.ok { original := "x", translated := "Tx", from_lang := "ja", to_lang := "fr",
             success := true, characters := 1, time_ms := 2 },
       { total_requests := 1, total_characters := 1, average_time_ms := 2, errors := 0 }, 1) := by
  have h := (C9_language_codes_ignored (fun s => Except.ok ("T" ++ s))
      translationStatsInit "x" "ja" "fr" 2 "Tx" (by decide) (by decide)).1
  rw [h]
  norm_num [singleSuccessStats, translationStatsInit,
    show pyLen "x" = 1 from by decide]

/-- C10: an empty batch passes the size check and the loop, then the
per-text average computation divides by zero; the handler returns a 500
(`division by zero` wrapped as a batch failure) instead of an empty
success, and since `errors` grows by the batch size 0, statistics are
exactly unchanged. -/
theorem C10_empty_batch_is_500 (f : String → Except String String)
    (st : ServiceStats) (el : ℚ) :
    serviceTranslateBatch (some f) st [] el =
      (.httpError 500 "Batch translation failed: division by zero", st, 0) := by
  simp [serviceTranslateBatch, batchLoop]
